import Mathlib

/-!
Verification of the GPU channel message-scheduling core
(`content/common/gpu/gpu_channel.cc`).

The development shallowly embeds the two cooperating components of that
file:

* `GpuChannel` — the dispatch-thread side: the deferred-message queue with
  the GetStateFast reordering rule (`GpuChannel::OnMessageReceived`), the
  re-entrancy-guarded dispatch loop (`GpuChannel::HandleMessage`,
  `GpuChannel::OnScheduled`) and the processed counter
  (`GpuChannel::MessageProcessed`).

* `SyncPointMessageFilter` — the IO-thread side: the pending-record queue,
  the four-state preemption machine (IDLE/WAITING/CHECKING/PREEMPTING) with
  its one-shot timer, and the main-thread sync-point retirement helper
  (`InsertSyncPointOnMainThread`).

Machine-generated IPC message-type ids are modelled by distinct natural
number tags; `base::TimeTicks` by natural-number milliseconds.
-/

/-- Tag modelling `GpuCommandBufferMsg_GetStateFast::ID`. -/
def GetStateFastID : Nat := 1

/-- Tag modelling `GpuCommandBufferMsg_Rescheduled::ID`. -/
def RescheduledID : Nat := 2

/-- Tag modelling `GpuCommandBufferMsg_InsertSyncPoint::ID`. -/
def InsertSyncPointID : Nat := 3

/-- Tag modelling `GpuCommandBufferMsg_RetireSyncPoint::ID`. -/
def RetireSyncPointID : Nat := 4

/-- Constant `MSG_ROUTING_CONTROL` from ipc: the reserved routing id for control
messages handled by the channel itself. -/
def MSG_ROUTING_CONTROL : Int := -1

/-- Constant `kVsyncIntervalMs`: number of milliseconds between successive vsync. -/
def kVsyncIntervalMs : Nat := 17

/-- Constant `kPreemptWaitTimeMs`: amount of time to wait for an IPC to be processed
before preempting. -/
def kPreemptWaitTimeMs : Nat := 2 * kVsyncIntervalMs

/-- Constant `kMaxPreemptTimeMs`: maximum duration of a preemption once triggered. -/
def kMaxPreemptTimeMs : Nat := kVsyncIntervalMs

/-- Constant `kStopPreemptThresholdMs`: preemption stops once the oldest pending IPC
drops below this age. -/
def kStopPreemptThresholdMs : Nat := kVsyncIntervalMs

namespace GpuChannel

/-- An `IPC::Message` as far as the channel's scheduling logic inspects it:
`routing_id()`, `type()` and `is_sync()`. -/
structure ChannelMsg where
  routingId : Int
  msgType : Nat
  isSync : Bool
deriving DecidableEq

/-- A `GpuCommandBufferStub` as far as `HandleMessage` consults it:
`route_id()`, `IsScheduled()`, `IsPreempted()`, `HasUnprocessedCommands()`. -/
structure Stub where
  routeId : Int
  scheduled : Bool
  preempted : Bool
  hasUnprocessedCommands : Bool
deriving DecidableEq

/-- External collaborators of the dispatch loop: the stub map
(`stubs_.Lookup`), the outcome of `OnControlMessageReceived`, the outcome of
`router_.RouteMessage`, and the stub's state after a message is handled. -/
structure ChannelEnv where
  stubs : Int → Option Stub
  controlResult : ChannelMsg → Bool
  routeResult : ChannelMsg → Bool
  stubAfterDispatch : ChannelMsg → Stub → Stub

/-- The scheduling state of a `GpuChannel`: `deferred_messages_`,
`messages_processed_`, `handle_messages_scheduled_`,
`processed_get_state_fast_`, whether `preempting_flag_` is non-null, and
(instrumentation) the number of posted-but-not-yet-run `HandleMessage`
tasks. -/
structure ChannelState where
  deferredMessages : List ChannelMsg
  messagesProcessed : Nat
  handleMessagesScheduled : Bool
  processedGetStateFast : Bool
  preemptingFlagSet : Bool
  pendingHandleTasks : Nat
deriving DecidableEq

/-- Externally visible actions of the dispatch loop: sending a sync error
reply, and posting `SyncPointMessageFilter::MessageProcessed` to the IO
thread. -/
inductive ChannelAction where
  | sendErrorReply (m : ChannelMsg)
  | notifyFilterProcessed (n : Nat)
deriving DecidableEq

/-- Initial state of a freshly constructed channel. -/
def initChannelState : ChannelState :=
  { deferredMessages := []
    messagesProcessed := 0
    handleMessagesScheduled := false
    processedGetStateFast := false
    preemptingFlagSet := false
    pendingHandleTasks := 0 }

/-- Model of `GpuChannel::OnScheduled`: post a `HandleMessage` task unless one is
already pending. -/
def onScheduled (st : ChannelState) : ChannelState :=
  if st.handleMessagesScheduled then st
  else { st with pendingHandleTasks := st.pendingHandleTasks + 1
                 handleMessagesScheduled := true }

/-- Model of `GpuChannel::MessageProcessed`: bump `messages_processed_` and, when a
preempting flag exists, post the new count to the filter. -/
def messageProcessed (st : ChannelState) : ChannelState × List ChannelAction :=
  ({ st with messagesProcessed := st.messagesProcessed + 1 },
   if st.preemptingFlagSet then
     [ChannelAction.notifyFilterProcessed (st.messagesProcessed + 1)]
   else [])

/-- The `deferred_messages_.insert(point, ...)` path of
`GpuChannel::OnMessageReceived` for a GetStateFast arriving while
`processed_get_state_fast_` is set: skip the leading run of GetStateFast
messages, skip one further (non-GetStateFast) message if any, and insert
there. -/
def insertDeferredGetStateFast (q : List ChannelMsg) (m : ChannelMsg) :
    List ChannelMsg :=
  match q with
  | [] => [m]
  | x :: xs =>
    if x.msgType == GetStateFastID then x :: insertDeferredGetStateFast xs m
    else x :: m :: xs

/-- Model of `GpuChannel::OnMessageReceived`: defer the message (GetStateFast goes to
the front, or after the first non-GetStateFast message when the previously
dispatched message was a GetStateFast; everything else to the back), then
`OnScheduled`.  All branches leave `message_processed` false, so
`MessageProcessed` is never invoked here. -/
def onMessageReceived (st : ChannelState) (m : ChannelMsg) : ChannelState :=
  let q :=
    if m.msgType == GetStateFastID then
      if st.processedGetStateFast then
        insertDeferredGetStateFast st.deferredMessages m
      else m :: st.deferredMessages
    else st.deferredMessages ++ [m]
  onScheduled { st with deferredMessages := q }

/-- Routing outcome of a dequeued message: `OnControlMessageReceived` for
`MSG_ROUTING_CONTROL`, otherwise `router_.RouteMessage`. -/
def routeOutcome (env : ChannelEnv) (m : ChannelMsg) : Bool :=
  if m.routingId == MSG_ROUTING_CONTROL then env.controlResult m
  else env.routeResult m

/-- The continuation message synthesized by `HandleMessage`:
`GpuCommandBufferMsg_Rescheduled(stub->route_id())` (asynchronous). -/
def rescheduledMessage (routeId : Int) : ChannelMsg :=
  { routingId := routeId, msgType := RescheduledID, isSync := false }

/-- The trailing `if (!deferred_messages_.empty()) OnScheduled();` of
`HandleMessage` (reached only on the dispatch path). -/
def finishHandleMessage (r : ChannelState × List ChannelAction) :
    ChannelState × List ChannelAction :=
  if r.1.deferredMessages.isEmpty then r else (onScheduled r.1, r.2)

/-- The dispatch section of `HandleMessage`, after the head message `m` has
been popped into `st1` and `processed_get_state_fast_` updated: route it,
answer failed sync routing with an error reply, synthesize a `Rescheduled`
continuation when the stub is left with unprocessed commands, and otherwise
count the message as processed. -/
def dispatchHead (env : ChannelEnv) (st1 : ChannelState) (m : ChannelMsg)
    (stubOpt : Option Stub) : ChannelState × List ChannelAction :=
  let result := routeOutcome env m
  if result then
    match stubOpt with
    | some stub =>
      if (env.stubAfterDispatch m stub).hasUnprocessedCommands then
        ({ st1 with deferredMessages :=
            rescheduledMessage stub.routeId :: st1.deferredMessages }, [])
      else messageProcessed st1
    | none => messageProcessed st1
  else
    let r := messageProcessed st1
    (r.1, (if m.isSync then [ChannelAction.sendErrorReply m] else []) ++ r.2)

/-- Model of `GpuChannel::HandleMessage`: clear the re-entrancy guard; peek the front
deferred message; halt if its stub is unscheduled; repost and halt if the
stub is preempted; otherwise dequeue, dispatch, and repost when messages
remain. -/
def handleMessage (env : ChannelEnv) (st : ChannelState) :
    ChannelState × List ChannelAction :=
  let st0 := { st with handleMessagesScheduled := false }
  match st0.deferredMessages with
  | [] => (st0, [])
  | m :: rest =>
    match env.stubs m.routingId with
    | some stub =>
      if !stub.scheduled then (st0, [])
      else if stub.preempted then (onScheduled st0, [])
      else
        finishHandleMessage (dispatchHead env
          { st0 with deferredMessages := rest
                     processedGetStateFast := m.msgType == GetStateFastID }
          m (some stub))
    | none =>
      finishHandleMessage (dispatchHead env
        { st0 with deferredMessages := rest
                   processedGetStateFast := m.msgType == GetStateFastID }
        m none)

/-- Events driving the channel on its owning thread: a message delivered by
the transport, a posted `HandleMessage` task running, and an external
`OnScheduled` signal (a stub becoming ready). -/
inductive ChannelEvent where
  | receive (m : ChannelMsg)
  | runHandleMessage
  | stubReady

/-- One event of the channel's task loop.  A `HandleMessage` task can only
run when one is pending. -/
def channelStep (env : ChannelEnv) (e : ChannelEvent) (st : ChannelState) :
    ChannelState :=
  match e with
  | .receive m => onMessageReceived st m
  | .runHandleMessage =>
    if st.pendingHandleTasks = 0 then st
    else (handleMessage env
      { st with pendingHandleTasks := st.pendingHandleTasks - 1 }).1
  | .stubReady => onScheduled st

/-- Channel states reachable from the initial state by task-loop events. -/
inductive ChannelReachable (env : ChannelEnv) : ChannelState → Prop
  | init : ChannelReachable env initChannelState
  | step {st : ChannelState} (e : ChannelEvent) :
      ChannelReachable env st → ChannelReachable env (channelStep env e st)

/-- Is this message a GetStateFast? -/
def isGetStateFast (m : ChannelMsg) : Bool := m.msgType == GetStateFastID

/-- Are the two messages at the front of the queue both GetStateFast? -/
def twoGetStateFastAtFront : List ChannelMsg → Bool
  | a :: b :: _ => isGetStateFast a && isGetStateFast b
  | _ => false

/-- Does the queue hold at least one non-GetStateFast message? -/
def hasRegularMessage (q : List ChannelMsg) : Bool :=
  q.any (fun m => !(isGetStateFast m))

/-- The invariant behind the re-entrancy guard: a `HandleMessage` task is
pending exactly when `handle_messages_scheduled_` is set. -/
def taskInv (st : ChannelState) : Prop :=
  st.pendingHandleTasks = (if st.handleMessagesScheduled then 1 else 0)

/-- The regular message used in concrete scenarios. -/
def msgRegularA : ChannelMsg := { routingId := 1, msgType := 0, isSync := false }

/-- A GetStateFast message used in concrete scenarios. -/
def msgGetStateFastOne : ChannelMsg :=
  { routingId := 1, msgType := GetStateFastID, isSync := true }

/-- Environment for concrete scenarios: a single scheduled, non-preempted
stub on route 1 that keeps unprocessed commands after any dispatch. -/
def envBusyStub : ChannelEnv :=
  { stubs := fun _ => some ⟨1, true, false, true⟩
    controlResult := fun _ => true
    routeResult := fun _ => true
    stubAfterDispatch := fun _ s => s }

/-- Channel state for concrete scenarios: one regular deferred message. -/
def stOneRegular : ChannelState :=
  { initChannelState with deferredMessages := [msgRegularA] }

end GpuChannel

namespace SyncPointMessageFilter

/-- The four states of the preemption state machine. -/
inductive PreemptionState where
  | idle
  | waiting
  | checking
  | preempting
deriving DecidableEq

/-- A `PendingMessage` record: message sequence number plus arrival
timestamp (`base::TimeTicks` modelled as milliseconds). -/
structure PendingMessage where
  messageNumber : Nat
  timeReceived : Nat
deriving DecidableEq

/-- What the one-shot `timer_` will do when it fires: the three callbacks
installed by the filter. -/
inductive TimerTarget where
  | toChecking
  | toIdle
  | updateTick
deriving DecidableEq

/-- An armed one-shot timer: its absolute deadline and its callback. -/
structure TimerInfo where
  deadline : Nat
  target : TimerTarget
deriving DecidableEq

/-- The IO-thread state of a `SyncPointMessageFilter`: `preemption_state_`,
`pending_messages_`, `messages_received_`, the shared `preempting_flag_`
(`none` = pointer not installed, `some b` = flag installed with value `b`),
the one-shot `timer_`, and (instrumentation) the time at which PREEMPTING
was last entered. -/
structure FilterState where
  preemptionState : PreemptionState
  pendingMessages : List PendingMessage
  messagesReceived : Nat
  preemptingFlag : Option Bool
  timer : Option TimerInfo
  preemptStart : Nat
deriving DecidableEq

/-- The filter's state at construction. -/
def initFilterState : FilterState :=
  { preemptionState := .idle
    pendingMessages := []
    messagesReceived := 0
    preemptingFlag := none
    timer := none
    preemptStart := 0 }

/-- Body of `TransitionToWaiting`: enter WAITING and start the
`kPreemptWaitTimeMs` timer towards `TransitionToChecking`. -/
def transitionToWaitingCore (now : Nat) (st : FilterState) : FilterState :=
  { st with preemptionState := .waiting
            timer := some ⟨now + kPreemptWaitTimeMs, .toChecking⟩ }

/-- The IDLE case of `UpdatePreemptionState`: move to WAITING when the
preempting flag is installed and records are pending. -/
def updateAfterIdle (now : Nat) (st : FilterState) : FilterState :=
  if st.preemptingFlag.isSome && !st.pendingMessages.isEmpty then
    transitionToWaitingCore now st
  else st

/-- Model of `TransitionToIdle`: stop the timer, enter IDLE, `Reset()` the flag, and
re-run `UpdatePreemptionState` (its IDLE case). -/
def transitionToIdleCore (now : Nat) (st : FilterState) : FilterState :=
  updateAfterIdle now
    { st with preemptionState := .idle
              timer := none
              preemptingFlag := st.preemptingFlag.map (fun _ => false) }

/-- The PREEMPTING case of `UpdatePreemptionState`: drop back to IDLE when
the record queue is empty or the oldest record's age is below
`kStopPreemptThresholdMs`. -/
def updateAfterPreempting (now : Nat) (st : FilterState) : FilterState :=
  match st.pendingMessages with
  | [] => transitionToIdleCore now st
  | p :: _ =>
    if now - p.timeReceived < kStopPreemptThresholdMs then
      transitionToIdleCore now st
    else st

/-- Model of `TransitionToPreempting`: stop pending checks, enter PREEMPTING,
`Set()` the flag, start the `kMaxPreemptTimeMs` timer towards
`TransitionToIdle`, and re-run `UpdatePreemptionState` (its PREEMPTING
case). -/
def transitionToPreemptingCore (now : Nat) (st : FilterState) : FilterState :=
  updateAfterPreempting now
    { st with preemptionState := .preempting
              preemptingFlag := st.preemptingFlag.map (fun _ => true)
              timer := some ⟨now + kMaxPreemptTimeMs, .toIdle⟩
              preemptStart := now }

/-- Model of `UpdatePreemptionState`: the four-way switch on `preemption_state_`. -/
def updatePreemptionState (now : Nat) (st : FilterState) : FilterState :=
  match st.preemptionState with
  | .idle => updateAfterIdle now st
  | .waiting => st
  | .checking =>
    match st.pendingMessages with
    | [] => st
    | p :: _ =>
      if now - p.timeReceived < kPreemptWaitTimeMs then
        let d := now + (kPreemptWaitTimeMs - (now - p.timeReceived))
        { st with timer := some ⟨d, .updateTick⟩ }
      else transitionToPreemptingCore now st
  | .preempting => updateAfterPreempting now st

/-- Model of `TransitionToChecking`: enter CHECKING and re-run
`UpdatePreemptionState`. -/
def transitionToCheckingCore (now : Nat) (st : FilterState) : FilterState :=
  updatePreemptionState now { st with preemptionState := .checking }

/-- The one-shot timer firing: the timer disarms itself, then runs its
callback (each callback body is guarded by the state its `DCHECK`
documents). -/
def fireTimer (now : Nat) (st : FilterState) : FilterState :=
  match st.timer with
  | none => st
  | some ti =>
    let cleared := { st with timer := none }
    match ti.target with
    | .toChecking =>
      if cleared.preemptionState = .waiting then
        transitionToCheckingCore now cleared
      else cleared
    | .toIdle =>
      if cleared.preemptionState = .preempting then
        transitionToIdleCore now cleared
      else cleared
    | .updateTick => updatePreemptionState now cleared

/-- The pop loop of `SyncPointMessageFilter::MessageProcessed`: remove
front records whose number is at most the processed count. -/
def popProcessed : List PendingMessage → Nat → List PendingMessage
  | [], _ => []
  | p :: ps, n =>
    if p.messageNumber ≤ n then popProcessed ps n else p :: ps

/-- Model of `SyncPointMessageFilter::OnMessageReceived` (queue bookkeeping):
`RetireSyncPoint` messages are rejected outright; otherwise the received
count is bumped, a pending record is pushed when the preempting flag is
installed, and the preemption state is updated. -/
def onMessageReceived (now msgType : Nat) (st : FilterState) : FilterState :=
  if msgType == RetireSyncPointID then st
  else
    let n := st.messagesReceived + 1
    let pending :=
      if st.preemptingFlag.isSome then
        st.pendingMessages ++ [⟨n, now⟩]
      else st.pendingMessages
    updatePreemptionState now
      { st with messagesReceived := n, pendingMessages := pending }

/-- Model of `SyncPointMessageFilter::MessageProcessed`: pop confirmed records, then
update the preemption state. -/
def messageProcessedF (now n : Nat) (st : FilterState) : FilterState :=
  updatePreemptionState now
    { st with pendingMessages := popProcessed st.pendingMessages n }

/-- Model of `SyncPointMessageFilter::SetPreemptingFlag`: install the shared flag
pointer (the flag itself starts cleared). -/
def setPreemptingFlag (st : FilterState) : FilterState :=
  { st with preemptingFlag := some false }

/-- Events observed by the filter on the IO thread. -/
inductive FilterEvent where
  | installFlag
  | arrive (msgType : Nat)
  | processed (n : Nat)
  | timerFire

/-- One event applied at absolute time `now`. -/
def filterStep (now : Nat) (e : FilterEvent) (st : FilterState) : FilterState :=
  match e with
  | .installFlag => setPreemptingFlag st
  | .arrive ty => onMessageReceived now ty st
  | .processed n => messageProcessedF now n st
  | .timerFire => fireTimer now st

/-- An event at time `now` may not jump past an armed timer's deadline. -/
def deadlineOK : Option TimerInfo → Nat → Bool
  | none, _ => true
  | some ti, now => Nat.ble now ti.deadline

/-- A timer may fire only when armed, and fires exactly at its deadline. -/
def fireOK : Option TimerInfo → FilterEvent → Nat → Bool
  | some ti, .timerFire, now => now == ti.deadline
  | none, .timerFire, _ => false
  | _, _, _ => true

/-- Timed reachability of filter states: events happen at nondecreasing
times, never beyond an armed deadline, and one-shot timers fire exactly at
their deadline. -/
inductive FilterReachable : FilterState → Nat → Prop
  | init : FilterReachable initFilterState 0
  | step {st : FilterState} {t now : Nat} (e : FilterEvent) :
      FilterReachable st t →
      t ≤ now →
      deadlineOK st.timer now = true →
      fireOK st.timer e now = true →
      FilterReachable (filterStep now e st) now

/-- Effects of `SyncPointMessageFilter::InsertSyncPointOnMainThread`: sync
points passed to `stub->AddSyncPoint`, `RetireSyncPoint` messages enqueued
into the channel, sync points force-retired through the `SyncPointManager`,
and whether `GpuChannel::MessageProcessed` was called. -/
structure SyncPointOutcome where
  addedToStub : List (Int × Nat)
  queuedRetire : List (Int × Nat)
  forceRetired : List Nat
  messageProcessedCalled : Bool
deriving DecidableEq

/-- Model of `InsertSyncPointOnMainThread`: if the channel is alive and the stub is
found, associate the sync point with the stub and enqueue a
`RetireSyncPoint` message; otherwise (stub gone, or whole channel gone)
force-retire the sync point through the manager immediately. -/
def insertSyncPointOnMainThread (channelAlive : Bool) (stubFound : Int → Bool)
    (routingId : Int) (syncPoint : Nat) : SyncPointOutcome :=
  if channelAlive then
    if stubFound routingId then
      { addedToStub := [(routingId, syncPoint)]
        queuedRetire := [(routingId, syncPoint)]
        forceRetired := []
        messageProcessedCalled := false }
    else
      { addedToStub := []
        queuedRetire := []
        forceRetired := [syncPoint]
        messageProcessedCalled := true }
  else
    { addedToStub := []
      queuedRetire := []
      forceRetired := [syncPoint]
      messageProcessedCalled := false }

/-- Filter state for concrete scenarios: flag installed, nothing pending. -/
def stFlagInstalled : FilterState :=
  { initFilterState with preemptingFlag := some false }

/-- Filter state for concrete scenarios: CHECKING with one record that
arrived at time 0 as message number 1, flag installed. -/
def stCheckingOne : FilterState :=
  { initFilterState with
      preemptionState := .checking
      pendingMessages := [⟨1, 0⟩]
      preemptingFlag := some false }

/-- The invariant behind the bounded-preemption guarantee: whenever the
filter is PREEMPTING, the one-shot timer is armed to force it back to IDLE
at exactly `preemptStart + kMaxPreemptTimeMs`, and the current time has not
passed that deadline. -/
def boundedPreemptInv (st : FilterState) (t : Nat) : Prop :=
  st.preemptionState = .preempting →
    st.timer = some ⟨st.preemptStart + kMaxPreemptTimeMs, .toIdle⟩ ∧
    t ≤ st.preemptStart + kMaxPreemptTimeMs

end SyncPointMessageFilter

namespace GpuChannel

@[simp]
lemma onScheduled_deferredMessages (st : ChannelState) :
    (onScheduled st).deferredMessages = st.deferredMessages := by
  unfold onScheduled; split <;> rfl

@[simp]
lemma onScheduled_messagesProcessed (st : ChannelState) :
    (onScheduled st).messagesProcessed = st.messagesProcessed := by
  unfold onScheduled; split <;> rfl

@[simp]
lemma finishHandleMessage_deferredMessages (r : ChannelState × List ChannelAction) :
    (finishHandleMessage r).1.deferredMessages = r.1.deferredMessages := by
  unfold finishHandleMessage; split <;> simp

@[simp]
lemma finishHandleMessage_messagesProcessed (r : ChannelState × List ChannelAction) :
    (finishHandleMessage r).1.messagesProcessed = r.1.messagesProcessed := by
  unfold finishHandleMessage; split <;> simp

@[simp]
lemma finishHandleMessage_actions (r : ChannelState × List ChannelAction) :
    (finishHandleMessage r).2 = r.2 := by
  unfold finishHandleMessage; split <;> rfl

end GpuChannel

open GpuChannel in
/-- C1 (counterexample): receiving a regular message and then two
GetStateFast messages — with no intervening dispatch, so
`processed_get_state_fast_` stays false and both GetStateFast messages are
pushed to the front — leaves two GetStateFast messages adjacent at the
front of the deferred queue even though a regular message is available. -/
theorem getStateFast_front_adjacency_cex :
    twoGetStateFastAtFront
      (onMessageReceived (onMessageReceived
        (onMessageReceived initChannelState msgRegularA)
        msgGetStateFastOne) msgGetStateFastOne).deferredMessages = true ∧
    hasRegularMessage
      (onMessageReceived (onMessageReceived
        (onMessageReceived initChannelState msgRegularA)
        msgGetStateFastOne) msgGetStateFastOne).deferredMessages = true := by
  decide

open GpuChannel in
/-- C1 (amended): when `processed_get_state_fast_` is true — the state in
which the separation rule applies — enqueuing a GetStateFast message
preserves the property that the two messages at the front of the deferred
queue are not both GetStateFast, provided a regular (non-GetStateFast)
message is available in the queue. -/
theorem getStateFast_insertion_separates_front
    (st : ChannelState) (m : ChannelMsg)
    (h1 : st.processedGetStateFast = true)
    (h2 : m.msgType = GetStateFastID)
    (h3 : hasRegularMessage st.deferredMessages = true)
    (h4 : twoGetStateFastAtFront st.deferredMessages = false) :
    twoGetStateFastAtFront (onMessageReceived st m).deferredMessages = false := by
  unfold onMessageReceived
  rw [onScheduled_deferredMessages]
  simp only [h1, h2, beq_self_eq_true, if_true]
  revert h3 h4
  generalize st.deferredMessages = q
  intro h3 h4
  match q with
  | [] => simp [hasRegularMessage] at h3
  | x :: xs =>
    unfold insertDeferredGetStateFast
    by_cases hx : (x.msgType == GetStateFastID) = true
    · rw [if_pos hx]
      match xs with
      | [] =>
        simp [hasRegularMessage, isGetStateFast, hx] at h3
      | y :: ys =>
        simp only [twoGetStateFastAtFront, isGetStateFast, hx, Bool.true_and] at h4
        unfold insertDeferredGetStateFast
        simp [twoGetStateFastAtFront, isGetStateFast, h4]
    · rw [if_neg hx]
      simp [twoGetStateFastAtFront, isGetStateFast, hx]

open GpuChannel in
/-- C1 (witness for the amended claim): with the queue holding one regular
message and `processed_get_state_fast_` set, inserting a GetStateFast does
not create two adjacent GetStateFast messages at the front. -/
theorem getStateFast_insertion_separates_front_witness :
    twoGetStateFastAtFront
      (onMessageReceived
        { initChannelState with
            deferredMessages := [msgRegularA], processedGetStateFast := true }
        msgGetStateFastOne).deferredMessages = false :=
  getStateFast_insertion_separates_front _ _ rfl rfl (by decide) (by decide)

open SyncPointMessageFilter in
/-- C2: `InsertSyncPointOnMainThread` retires every generated sync point
exactly once, for every combination of channel liveness and stub presence:
when the channel is alive and the stub is found, the sync point is added to
the stub and a `RetireSyncPoint` message is queued; otherwise it is
force-retired immediately through the sync-point manager.  In all cases the
token is retired exactly once, never twice and never left pending. -/
theorem insertSyncPoint_retired_exactly_once
    (channelAlive : Bool) (stubFound : Int → Bool)
    (routingId : Int) (syncPoint : Nat) :
    ((insertSyncPointOnMainThread channelAlive stubFound
        routingId syncPoint).queuedRetire.map Prod.snd
      ++ (insertSyncPointOnMainThread channelAlive stubFound
        routingId syncPoint).forceRetired = [syncPoint]) ∧
    (insertSyncPointOnMainThread channelAlive stubFound
        routingId syncPoint).addedToStub
      = (insertSyncPointOnMainThread channelAlive stubFound
        routingId syncPoint).queuedRetire ∧
    (insertSyncPointOnMainThread channelAlive stubFound
        routingId syncPoint).queuedRetire =
      (if channelAlive && stubFound routingId then [(routingId, syncPoint)] else []) ∧
    (insertSyncPointOnMainThread channelAlive stubFound
        routingId syncPoint).forceRetired =
      (if channelAlive && stubFound routingId then [] else [syncPoint]) := by
  unfold insertSyncPointOnMainThread
  cases channelAlive <;> cases h : stubFound routingId <;> simp [h]

open GpuChannel in
/-- C5: when the front deferred message routes to an existing stub, the
dispatch loop leaves the queue untouched if the stub is unscheduled
(returning with no wake-up posted), and leaves the queue untouched while
posting a future wake-up if the stub is scheduled but preempted. -/
theorem handleMessage_unscheduled_or_preempted_no_dequeue
    (env : ChannelEnv) (st : ChannelState) (m : ChannelMsg)
    (rest : List ChannelMsg) (stub : Stub)
    (h1 : st.deferredMessages = m :: rest)
    (h2 : env.stubs m.routingId = some stub) :
    (stub.scheduled = false →
      handleMessage env st = ({ st with handleMessagesScheduled := false }, [])) ∧
    (stub.scheduled = true → stub.preempted = true →
      handleMessage env st
        = (onScheduled { st with handleMessagesScheduled := false }, []) ∧
      (handleMessage env st).1.deferredMessages = st.deferredMessages ∧
      (handleMessage env st).1.handleMessagesScheduled = true) := by
  constructor
  · intro hs
    simp [handleMessage, h1, h2, hs]
  · intro hs hp
    refine ⟨by simp [handleMessage, h1, h2, hs, hp], ?_, ?_⟩
    · simp [handleMessage, h1, h2, hs, hp]
    · simp [handleMessage, h1, h2, hs, hp, onScheduled]

open GpuChannel in
/-- C5 (witness): with an unscheduled stub at the front message's route, the
loop returns leaving the queue unchanged, and with a scheduled-but-preempted
stub it reposts itself without dequeuing. -/
theorem handleMessage_unscheduled_or_preempted_no_dequeue_witness :
    (handleMessage
        { stubs := fun _ => some ⟨1, false, false, false⟩
          controlResult := fun _ => true
          routeResult := fun _ => true
          stubAfterDispatch := fun _ s => s }
        { initChannelState with
            deferredMessages := [msgRegularA], handleMessagesScheduled := true }
      = ({ initChannelState with
             deferredMessages := [msgRegularA], handleMessagesScheduled := false },
         [])) ∧
    (handleMessage
        { stubs := fun _ => some ⟨1, true, true, false⟩
          controlResult := fun _ => true
          routeResult := fun _ => true
          stubAfterDispatch := fun _ s => s }
        { initChannelState with
            deferredMessages := [msgRegularA], handleMessagesScheduled := true }).1.deferredMessages
      = [msgRegularA] := by
  constructor
  · exact (handleMessage_unscheduled_or_preempted_no_dequeue
      _ _ msgRegularA [] ⟨1, false, false, false⟩ rfl rfl).1 rfl
  · exact ((handleMessage_unscheduled_or_preempted_no_dequeue
      _ _ msgRegularA [] ⟨1, true, true, false⟩ rfl rfl).2 rfl rfl).2.1

open GpuChannel in
/-- C6: when the front message's routing id is unknown (no stub, and the
router fails), a synchronous message gets an explicit error reply while an
asynchronous message is dropped without any reply; either way the message is
dequeued. -/
theorem handleMessage_routing_failure_reply
    (env : ChannelEnv) (st : ChannelState) (m : ChannelMsg)
    (rest : List ChannelMsg)
    (h1 : st.deferredMessages = m :: rest)
    (h2 : env.stubs m.routingId = none)
    (h3 : (m.routingId == MSG_ROUTING_CONTROL) = false)
    (h4 : env.routeResult m = false) :
    ((ChannelAction.sendErrorReply m ∈ (handleMessage env st).2) ↔ m.isSync = true) ∧
    (m.isSync = false →
      ∀ x, ChannelAction.sendErrorReply x ∉ (handleMessage env st).2) ∧
    (handleMessage env st).1.deferredMessages = rest := by
  have hbody : handleMessage env st
      = finishHandleMessage (dispatchHead env
          { st with handleMessagesScheduled := false
                    deferredMessages := rest
                    processedGetStateFast := m.msgType == GetStateFastID }
          m none) := by
    simp [handleMessage, h1, h2]
  rw [hbody]
  unfold dispatchHead
  simp only [routeOutcome, h3, if_false, h4, Bool.false_eq_true, ite_false,
    finishHandleMessage_actions, finishHandleMessage_deferredMessages]
  cases hsync : m.isSync <;>
    cases hflag : st.preemptingFlagSet <;>
      simp [messageProcessed, hflag]

open GpuChannel in
/-- C6 (witness): a synchronous unroutable message produces exactly an error
reply; an asynchronous unroutable message produces no reply; both are
dequeued. -/
theorem handleMessage_routing_failure_reply_witness :
    (ChannelAction.sendErrorReply { routingId := 7, msgType := 0, isSync := true }
      ∈ (handleMessage
          { stubs := fun _ => none
            controlResult := fun _ => false
            routeResult := fun _ => false
            stubAfterDispatch := fun _ s => s }
          { initChannelState with
              deferredMessages := [{ routingId := 7, msgType := 0, isSync := true }] }).2) ∧
    (∀ x, ChannelAction.sendErrorReply x
      ∉ (handleMessage
          { stubs := fun _ => none
            controlResult := fun _ => false
            routeResult := fun _ => false
            stubAfterDispatch := fun _ s => s }
          { initChannelState with
              deferredMessages := [msgRegularA] }).2) := by
  constructor
  · exact (handleMessage_routing_failure_reply _ _
      { routingId := 7, msgType := 0, isSync := true } [] rfl rfl rfl rfl).1.mpr rfl
  · exact (handleMessage_routing_failure_reply _ _ msgRegularA [] rfl rfl rfl rfl).2.1 rfl

open GpuChannel in
/-- C7: after a successful dispatch whose stub is left with unprocessed
commands, the loop pushes a synthesized `Rescheduled` message for that stub
to the front of the queue, and the dispatched message is not counted as
processed: the global processed counter stays unchanged and no processed
notification is emitted. -/
theorem handleMessage_unprocessed_commands_reschedules
    (env : ChannelEnv) (st : ChannelState) (m : ChannelMsg)
    (rest : List ChannelMsg) (stub : Stub)
    (h1 : st.deferredMessages = m :: rest)
    (h2 : env.stubs m.routingId = some stub)
    (h3 : stub.scheduled = true)
    (h4 : stub.preempted = false)
    (h5 : routeOutcome env m = true)
    (h6 : (env.stubAfterDispatch m stub).hasUnprocessedCommands = true) :
    (handleMessage env st).1.deferredMessages
      = rescheduledMessage stub.routeId :: rest ∧
    (handleMessage env st).1.messagesProcessed = st.messagesProcessed ∧
    (handleMessage env st).2 = [] := by
  have hbody : handleMessage env st
      = finishHandleMessage (dispatchHead env
          { st with handleMessagesScheduled := false
                    deferredMessages := rest
                    processedGetStateFast := m.msgType == GetStateFastID }
          m (some stub)) := by
    simp [handleMessage, h1, h2, h3, h4]
  rw [hbody]
  unfold dispatchHead
  simp [h5, h6]

namespace SyncPointMessageFilter

@[simp]
lemma transitionToWaitingCore_pending (now : Nat) (st : FilterState) :
    (transitionToWaitingCore now st).pendingMessages = st.pendingMessages := rfl

@[simp]
lemma updateAfterIdle_pending (now : Nat) (st : FilterState) :
    (updateAfterIdle now st).pendingMessages = st.pendingMessages := by
  unfold updateAfterIdle; split <;> rfl

@[simp]
lemma transitionToIdleCore_pending (now : Nat) (st : FilterState) :
    (transitionToIdleCore now st).pendingMessages = st.pendingMessages := by
  unfold transitionToIdleCore; simp

@[simp]
lemma updateAfterPreempting_pending (now : Nat) (st : FilterState) :
    (updateAfterPreempting now st).pendingMessages = st.pendingMessages := by
  unfold updateAfterPreempting
  split
  · simp
  · split <;> simp

@[simp]
lemma transitionToPreemptingCore_pending (now : Nat) (st : FilterState) :
    (transitionToPreemptingCore now st).pendingMessages = st.pendingMessages := by
  unfold transitionToPreemptingCore; simp

@[simp]
lemma updatePreemptionState_pending (now : Nat) (st : FilterState) :
    (updatePreemptionState now st).pendingMessages = st.pendingMessages := by
  unfold updatePreemptionState
  split
  · simp
  · rfl
  · split
    · rfl
    · split
      · rfl
      · simp
  · simp

@[simp]
lemma updateAfterIdle_flag (now : Nat) (st : FilterState) :
    (updateAfterIdle now st).preemptingFlag = st.preemptingFlag := by
  unfold updateAfterIdle; split <;> rfl

@[simp]
lemma transitionToIdleCore_flag (now : Nat) (st : FilterState) :
    (transitionToIdleCore now st).preemptingFlag
      = st.preemptingFlag.map (fun _ => false) := by
  unfold transitionToIdleCore; simp

lemma transitionToIdleCore_state (now : Nat) (st : FilterState) :
    (transitionToIdleCore now st).preemptionState = .idle ∨
    (transitionToIdleCore now st).preemptionState = .waiting := by
  unfold transitionToIdleCore updateAfterIdle
  split
  · right; rfl
  · left; rfl

lemma transitionToIdleCore_timer (now : Nat) (st : FilterState) :
    (transitionToIdleCore now st).timer = none ∨
    ∃ d, (transitionToIdleCore now st).timer = some ⟨d, .toChecking⟩ := by
  unfold transitionToIdleCore updateAfterIdle
  split
  · right; exact ⟨_, rfl⟩
  · left; rfl

lemma popProcessed_eq_dropWhile (l : List PendingMessage) (n : Nat) :
    popProcessed l n = l.dropWhile (fun p => decide (p.messageNumber ≤ n)) := by
  induction l with
  | nil => rfl
  | cons p ps ih =>
    unfold popProcessed
    by_cases h : p.messageNumber ≤ n
    · simp [h, List.dropWhile_cons, ih]
    · simp [h, List.dropWhile_cons]

end SyncPointMessageFilter

open SyncPointMessageFilter in
/-- C4 (counterexample): a message received while no preempting flag is
installed is counted (`messages_received_` becomes 1) but pushes no
pending record, so the claim that every received message pushes a
(sequence, timestamp) record is false. -/
theorem pending_record_push_unconditional_cex :
    (onMessageReceived 0 5 initFilterState).messagesReceived = 1 ∧
    (onMessageReceived 0 5 initFilterState).pendingMessages = [] := by
  decide

open SyncPointMessageFilter in
/-- C4 (amended): every message received while the preempting flag is
installed (other than `RetireSyncPoint`, which is rejected outright) pushes
a record carrying the incremented sequence number and the arrival
timestamp, and every confirmed-processed notification pops records from the
front of the queue up to and including the reported processed count. -/
theorem pending_record_push_pop
    (now ty n : Nat) (st : FilterState)
    (h1 : st.preemptingFlag.isSome = true)
    (h2 : (ty == RetireSyncPointID) = false) :
    (onMessageReceived now ty st).pendingMessages
      = st.pendingMessages ++ [⟨st.messagesReceived + 1, now⟩] ∧
    (messageProcessedF now n st).pendingMessages
      = st.pendingMessages.dropWhile (fun p => decide (p.messageNumber ≤ n)) := by
  constructor
  · unfold onMessageReceived
    simp [h2, h1]
  · unfold messageProcessedF
    simp [popProcessed_eq_dropWhile]

open SyncPointMessageFilter in
/-- C4 (witness): with the flag installed, a message arriving at time 7
pushes the record (1, 7); a processed notification for count 0 pops
nothing from an empty record queue. -/
theorem pending_record_push_pop_witness :
    (onMessageReceived 7 5 stFlagInstalled).pendingMessages = [⟨1, 7⟩] ∧
    (messageProcessedF 7 0 stFlagInstalled).pendingMessages = [] := by
  have h := pending_record_push_pop 7 5 0 stFlagInstalled rfl rfl
  exact ⟨h.1, h.2⟩

open SyncPointMessageFilter in
/-- C8: WAITING is entered with a timer armed for exactly
`kPreemptWaitTimeMs` (= 34 ms, two vsync intervals) towards CHECKING; in
CHECKING with a pending record, an update below the grace threshold
re-arms a check for exactly the remaining time, and an update at or above
the threshold transitions to PREEMPTING. -/
theorem waiting_checking_timer_behavior
    (now : Nat) (st : FilterState) (p : PendingMessage)
    (ps : List PendingMessage)
    (h1 : st.preemptionState = .checking)
    (h2 : st.pendingMessages = p :: ps) :
    kPreemptWaitTimeMs = 34 ∧
    (∀ (n2 : Nat) (st2 : FilterState),
      (transitionToWaitingCore n2 st2).preemptionState = .waiting ∧
      (transitionToWaitingCore n2 st2).timer
        = some ⟨n2 + kPreemptWaitTimeMs, .toChecking⟩) ∧
    (now - p.timeReceived < kPreemptWaitTimeMs →
      updatePreemptionState now st
        = { st with timer := some ⟨now + (kPreemptWaitTimeMs - (now - p.timeReceived)), .updateTick⟩ }) ∧
    (kPreemptWaitTimeMs ≤ now - p.timeReceived →
      (updatePreemptionState now st).preemptionState = .preempting) := by
  refine ⟨rfl, fun n2 st2 => ⟨rfl, rfl⟩, ?_, ?_⟩
  · intro hlt
    unfold updatePreemptionState
    simp [h1, h2, hlt]
  · intro hge
    have hnlt : ¬ (now - p.timeReceived < kPreemptWaitTimeMs) := by omega
    have hnstop : ¬ (now - p.timeReceived < kStopPreemptThresholdMs) := by
      unfold kPreemptWaitTimeMs kVsyncIntervalMs at hge
      unfold kStopPreemptThresholdMs kVsyncIntervalMs
      omega
    unfold updatePreemptionState
    simp only [h1, h2]
    rw [if_neg hnlt]
    unfold transitionToPreemptingCore updateAfterPreempting
    simp [h2, hnstop]

open SyncPointMessageFilter in
/-- C8 (witness): in CHECKING with one record aged 10 ms at time 10, the
filter re-arms a check for time 34 (the remaining 24 ms of the grace
interval); had the record been 34 ms old, it would preempt. -/
theorem waiting_checking_timer_behavior_witness :
    updatePreemptionState 10 stCheckingOne
      = { stCheckingOne with timer := some ⟨34, .updateTick⟩ } ∧
    (updatePreemptionState 34 stCheckingOne).preemptionState = .preempting := by
  constructor
  · exact (waiting_checking_timer_behavior 10 stCheckingOne ⟨1, 0⟩ [] rfl rfl).2.2.1
      (by decide)
  · exact (waiting_checking_timer_behavior 34 stCheckingOne ⟨1, 0⟩ [] rfl rfl).2.2.2
      (by decide)

open SyncPointMessageFilter in
/-- C9: in PREEMPTING, an update finding the record queue empty, or the
oldest record younger than `kStopPreemptThresholdMs` (one vsync interval),
leaves PREEMPTING via `TransitionToIdle`: the state is no longer
PREEMPTING, the shared flag is reset, and the max-preempt timer is
cancelled — all before that timer would have fired. -/
theorem preempting_early_stop
    (now : Nat) (st : FilterState)
    (h1 : st.preemptionState = .preempting)
    (h2 : st.pendingMessages = [] ∨
          ∃ p ps, st.pendingMessages = p :: ps ∧
            now - p.timeReceived < kStopPreemptThresholdMs) :
    kStopPreemptThresholdMs = kVsyncIntervalMs ∧
    (updatePreemptionState now st).preemptionState ≠ .preempting ∧
    (updatePreemptionState now st).preemptingFlag
      = st.preemptingFlag.map (fun _ => false) ∧
    ∀ d, (updatePreemptionState now st).timer ≠ some ⟨d, .toIdle⟩ := by
  have key : updatePreemptionState now st = transitionToIdleCore now st := by
    unfold updatePreemptionState
    simp only [h1]
    rcases h2 with h | ⟨p, ps, hp, hlt⟩
    · unfold updateAfterPreempting
      simp [h]
    · unfold updateAfterPreempting
      simp [hp, hlt]
  rw [key]
  refine ⟨rfl, ?_, by simp, ?_⟩
  · rcases transitionToIdleCore_state now st with h | h <;> simp [h]
  · intro d
    rcases transitionToIdleCore_timer now st with h | ⟨d2, h⟩ <;> simp [h]

open SyncPointMessageFilter in
/-- C9 (witness): at time 40, a PREEMPTING filter with an empty record
queue (max-preempt timer armed for 51) drops out of PREEMPTING and resets
the shared flag. -/
theorem preempting_early_stop_witness :
    (updatePreemptionState 40
        { preemptionState := .preempting
          pendingMessages := []
          messagesReceived := 5
          preemptingFlag := some true
          timer := some ⟨51, .toIdle⟩
          preemptStart := 34 }).preemptionState ≠ .preempting ∧
    (updatePreemptionState 40
        { preemptionState := .preempting
          pendingMessages := []
          messagesReceived := 5
          preemptingFlag := some true
          timer := some ⟨51, .toIdle⟩
          preemptStart := 34 }).preemptingFlag = some false := by
  have h := preempting_early_stop 40
    { preemptionState := .preempting
      pendingMessages := []
      messagesReceived := 5
      preemptingFlag := some true
      timer := some ⟨51, .toIdle⟩
      preemptStart := 34 } rfl (Or.inl rfl)
  exact ⟨h.2.1, h.2.2.1⟩

open GpuChannel in
/-- C7 (witness): a routable message to a scheduled stub that retains
unprocessed commands puts a `Rescheduled` continuation at the queue front
and leaves the processed counter at zero. -/
theorem handleMessage_unprocessed_commands_reschedules_witness :
    (handleMessage envBusyStub stOneRegular).1.deferredMessages
      = [rescheduledMessage 1] ∧
    (handleMessage envBusyStub stOneRegular).1.messagesProcessed = 0 := by
  refine ⟨(handleMessage_unprocessed_commands_reschedules envBusyStub stOneRegular
      msgRegularA [] ⟨1, true, false, true⟩ rfl rfl rfl rfl rfl rfl).1,
    (handleMessage_unprocessed_commands_reschedules envBusyStub stOneRegular
      msgRegularA [] ⟨1, true, false, true⟩ rfl rfl rfl rfl rfl rfl).2.1⟩

namespace GpuChannel

@[simp]
lemma messageProcessed_pendingTasks (st : ChannelState) :
    (messageProcessed st).1.pendingHandleTasks = st.pendingHandleTasks := rfl

@[simp]
lemma messageProcessed_scheduledFlag (st : ChannelState) :
    (messageProcessed st).1.handleMessagesScheduled = st.handleMessagesScheduled := rfl

lemma onScheduled_taskInv {st : ChannelState} (h : taskInv st) :
    taskInv (onScheduled st) := by
  unfold taskInv onScheduled at *
  by_cases hf : st.handleMessagesScheduled <;> simp [hf] at h ⊢ <;> omega

lemma dispatchHead_pendingTasks (env : ChannelEnv) (st1 : ChannelState)
    (m : ChannelMsg) (so : Option Stub) :
    (dispatchHead env st1 m so).1.pendingHandleTasks = st1.pendingHandleTasks := by
  unfold dispatchHead
  cases so with
  | none => dsimp only; split <;> rfl
  | some stub =>
    dsimp only
    split
    · split <;> rfl
    · rfl

lemma dispatchHead_scheduledFlag (env : ChannelEnv) (st1 : ChannelState)
    (m : ChannelMsg) (so : Option Stub) :
    (dispatchHead env st1 m so).1.handleMessagesScheduled
      = st1.handleMessagesScheduled := by
  unfold dispatchHead
  cases so with
  | none => dsimp only; split <;> rfl
  | some stub =>
    dsimp only
    split
    · split <;> rfl
    · rfl

lemma finishHandleMessage_taskInv {r : ChannelState × List ChannelAction}
    (h : taskInv r.1) : taskInv (finishHandleMessage r).1 := by
  unfold finishHandleMessage
  split
  · exact h
  · exact onScheduled_taskInv h

lemma handleMessage_taskInv (env : ChannelEnv) {st : ChannelState}
    (h : st.pendingHandleTasks = 0) : taskInv (handleMessage env st).1 := by
  have hbase : taskInv { st with handleMessagesScheduled := false } := by
    unfold taskInv; simpa using h
  unfold handleMessage
  cases hq : ({ st with handleMessagesScheduled := false } : ChannelState).deferredMessages with
  | nil => exact hbase
  | cons m rest =>
    simp only []
    cases hstub : env.stubs m.routingId with
    | some stub =>
      by_cases hs : stub.scheduled
      · by_cases hp : stub.preempted
        · simp only [hs, hp, Bool.not_true, if_false, if_true, ite_true, ite_false]
          exact onScheduled_taskInv hbase
        · simp only [hs, hp, Bool.not_true, if_false, ite_false]
          apply finishHandleMessage_taskInv
          unfold taskInv
          rw [dispatchHead_pendingTasks, dispatchHead_scheduledFlag]
          simpa using h
      · simp only [hs, Bool.not_false, if_true, ite_true]
        exact hbase
    | none =>
      apply finishHandleMessage_taskInv
      unfold taskInv
      rw [dispatchHead_pendingTasks, dispatchHead_scheduledFlag]
      simpa using h

lemma channelReachable_taskInv {env : ChannelEnv} {st : ChannelState}
    (hr : ChannelReachable env st) : taskInv st := by
  induction hr with
  | init => rfl
  | @step st e hr ih =>
    cases e with
    | receive m =>
      show taskInv (onMessageReceived _ m)
      unfold onMessageReceived
      exact onScheduled_taskInv ih
    | runHandleMessage =>
      simp only [channelStep]
      split
      · exact ih
      · next hne =>
        apply handleMessage_taskInv
        show st.pendingHandleTasks - 1 = 0
        unfold taskInv at ih
        split at ih <;> omega
    | stubReady => exact onScheduled_taskInv ih

end GpuChannel

open GpuChannel in
/-- C10: in every reachable channel state at most one `HandleMessage` task
is pending, and one is pending exactly when `handle_messages_scheduled_` is
set: `OnScheduled` posts only when the guard is clear (then sets it), and
`HandleMessage` clears the guard on entry and re-posts through `OnScheduled`
only when deferred messages remain. -/
theorem at_most_one_handle_task (env : ChannelEnv) (st : ChannelState)
    (hr : ChannelReachable env st) :
    st.pendingHandleTasks ≤ 1 ∧
    (st.handleMessagesScheduled = true ↔ st.pendingHandleTasks = 1) := by
  have h := channelReachable_taskInv hr
  unfold taskInv at h
  by_cases hf : st.handleMessagesScheduled
  · rw [if_pos hf] at h
    constructor
    · omega
    · simp [hf, h]
  · rw [if_neg hf] at h
    constructor
    · omega
    · constructor
      · intro hc
        exact absurd hc hf
      · intro hc
        omega

open GpuChannel in
/-- C10 (witness): after the initial state receives one message (which
posts the single `HandleMessage` task), exactly one task is pending and the
guard flag is set. -/
theorem at_most_one_handle_task_witness :
    (channelStep envBusyStub (.receive msgRegularA) initChannelState).pendingHandleTasks ≤ 1 ∧
    ((channelStep envBusyStub (.receive msgRegularA) initChannelState).handleMessagesScheduled = true ↔
      (channelStep envBusyStub (.receive msgRegularA) initChannelState).pendingHandleTasks = 1) :=
  at_most_one_handle_task envBusyStub _
    (ChannelReachable.step (.receive msgRegularA) ChannelReachable.init)

namespace SyncPointMessageFilter

lemma updateAfterIdle_not_preempting (now : Nat) (st : FilterState)
    (h : st.preemptionState ≠ .preempting) :
    (updateAfterIdle now st).preemptionState ≠ .preempting := by
  unfold updateAfterIdle
  split
  · simp [transitionToWaitingCore]
  · exact h

lemma transitionToIdleCore_not_preempting (now : Nat) (st : FilterState) :
    (transitionToIdleCore now st).preemptionState ≠ .preempting := by
  rcases transitionToIdleCore_state now st with h | h <;> simp [h]

lemma updateAfterPreempting_cases (now : Nat) (st : FilterState) :
    updateAfterPreempting now st = st ∨
    updateAfterPreempting now st = transitionToIdleCore now st := by
  unfold updateAfterPreempting
  split
  · right; rfl
  · split
    · right; rfl
    · left; rfl

lemma updateAfterPreempting_preempting (now : Nat) (st : FilterState)
    (h : (updateAfterPreempting now st).preemptionState = .preempting) :
    updateAfterPreempting now st = st := by
  rcases updateAfterPreempting_cases now st with hc | hc
  · exact hc
  · rw [hc] at h
    exact absurd h (transitionToIdleCore_not_preempting now st)

lemma transitionToPreemptingCore_spec (now : Nat) (st : FilterState)
    (h : (transitionToPreemptingCore now st).preemptionState = .preempting) :
    (transitionToPreemptingCore now st).timer
        = some ⟨now + kMaxPreemptTimeMs, .toIdle⟩ ∧
    (transitionToPreemptingCore now st).preemptStart = now := by
  unfold transitionToPreemptingCore at h ⊢
  have he := updateAfterPreempting_preempting now _ h
  rw [he]
  exact ⟨rfl, rfl⟩

lemma updatePreemptionState_preempting_cases (now : Nat) (st : FilterState)
    (h : (updatePreemptionState now st).preemptionState = .preempting) :
    (updatePreemptionState now st = st ∧ st.preemptionState = .preempting) ∨
    ((updatePreemptionState now st).timer = some ⟨now + kMaxPreemptTimeMs, .toIdle⟩ ∧
      (updatePreemptionState now st).preemptStart = now) := by
  unfold updatePreemptionState at h ⊢
  cases hs : st.preemptionState with
  | idle =>
    simp only [hs] at h ⊢
    exact absurd h (updateAfterIdle_not_preempting now st (by simp [hs]))
  | waiting =>
    simp [hs] at h
  | checking =>
    simp only [hs] at h ⊢
    cases hq : st.pendingMessages with
    | nil =>
      simp only [hq] at h
      simp [hs] at h
    | cons p ps =>
      simp only [hq] at h ⊢
      by_cases hlt : now - p.timeReceived < kPreemptWaitTimeMs
      · rw [if_pos hlt] at h
        simp [hs] at h
      · rw [if_neg hlt] at h ⊢
        right
        exact transitionToPreemptingCore_spec now st h
  | preempting =>
    simp only [hs] at h ⊢
    have he := updateAfterPreempting_preempting now st h
    rw [he]
    exact Or.inl ⟨rfl, trivial⟩

lemma fireTimer_preempting_cases (now : Nat) (st : FilterState)
    (hst : st.preemptionState = .preempting → ∃ d, st.timer = some ⟨d, .toIdle⟩)
    (h : (fireTimer now st).preemptionState = .preempting) :
    (fireTimer now st = st ∧ st.preemptionState = .preempting) ∨
    ((fireTimer now st).timer = some ⟨now + kMaxPreemptTimeMs, .toIdle⟩ ∧
      (fireTimer now st).preemptStart = now) := by
  unfold fireTimer at h ⊢
  cases htm : st.timer with
  | none =>
    simp only [htm] at h ⊢
    exact Or.inl ⟨trivial, h⟩
  | some ti =>
    simp only [htm] at h ⊢
    obtain ⟨d0, tgt⟩ := ti
    cases tgt with
    | toChecking =>
      dsimp only at h ⊢
      by_cases hw : ({ st with timer := none } : FilterState).preemptionState = .waiting
      · rw [if_pos hw] at h ⊢
        unfold transitionToCheckingCore at h ⊢
        rcases updatePreemptionState_preempting_cases now _ h with ⟨heq, hstate⟩ | hok
        · exact absurd hstate (by simp)
        · exact Or.inr hok
      · rw [if_neg hw] at h ⊢
        obtain ⟨d, hd⟩ := hst h
        rw [htm] at hd
        simp at hd
    | toIdle =>
      dsimp only at h ⊢
      by_cases hp : ({ st with timer := none } : FilterState).preemptionState = .preempting
      · rw [if_pos hp] at h
        exact absurd h (transitionToIdleCore_not_preempting now _)
      · rw [if_neg hp] at h
        exact absurd h hp
    | updateTick =>
      dsimp only at h ⊢
      rcases updatePreemptionState_preempting_cases now _ h with ⟨heq, hstate⟩ | hok
      · obtain ⟨d, hd⟩ := hst hstate
        rw [htm] at hd
        simp at hd
      · exact Or.inr hok

lemma deadlineOK_le {o : Option TimerInfo} {now : Nat} {ti : TimerInfo}
    (h1 : o = some ti) (h2 : deadlineOK o now = true) : now ≤ ti.deadline := by
  subst h1
  exact Nat.le_of_ble_eq_true h2

lemma updatePreemptionState_inv (now : Nat) (stMid st : FilterState) (t : Nat)
    (hstate : stMid.preemptionState = st.preemptionState)
    (htimer : stMid.timer = st.timer)
    (hstart : stMid.preemptStart = st.preemptStart)
    (ihold : boundedPreemptInv st t)
    (hdl : deadlineOK st.timer now = true) :
    boundedPreemptInv (updatePreemptionState now stMid) now := by
  intro h
  rcases updatePreemptionState_preempting_cases now stMid h with ⟨heq, hpre⟩ | ⟨htm, hps⟩
  · rw [heq]
    have hpre' : st.preemptionState = .preempting := hstate ▸ hpre
    obtain ⟨htm0, _⟩ := ihold hpre'
    rw [htimer, hstart]
    exact ⟨htm0, deadlineOK_le htm0 hdl⟩
  · rw [htm, hps]
    exact ⟨rfl, Nat.le_add_right _ _⟩

lemma filterReachable_boundedPreemptInv {st : FilterState} {t : Nat}
    (hr : FilterReachable st t) : boundedPreemptInv st t := by
  induction hr with
  | init =>
    intro h
    exact absurd h (by decide)
  | @step st t now e hr hle hdl hfk ih =>
    cases e with
    | installFlag =>
      intro h
      have hp : st.preemptionState = .preempting := h
      obtain ⟨htm, _⟩ := ih hp
      exact ⟨htm, deadlineOK_le htm hdl⟩
    | arrive ty =>
      simp only [filterStep]
      cases hc : ty == RetireSyncPointID with
      | true =>
        have hres : onMessageReceived now ty st = st := by
          simp [onMessageReceived, hc]
        rw [hres]
        intro h
        obtain ⟨htm, _⟩ := ih h
        exact ⟨htm, deadlineOK_le htm hdl⟩
      | false =>
        have hres : onMessageReceived now ty st
            = updatePreemptionState now
                { st with
                    messagesReceived := st.messagesReceived + 1
                    pendingMessages :=
                      if st.preemptingFlag.isSome then
                        st.pendingMessages ++ [⟨st.messagesReceived + 1, now⟩]
                      else st.pendingMessages } := by
          simp [onMessageReceived, hc]
        rw [hres]
        exact updatePreemptionState_inv now _ st t rfl rfl rfl ih hdl
    | processed n =>
      simp only [filterStep]
      have hres : messageProcessedF now n st
          = updatePreemptionState now
              { st with pendingMessages := popProcessed st.pendingMessages n } := rfl
      rw [hres]
      exact updatePreemptionState_inv now _ st t rfl rfl rfl ih hdl
    | timerFire =>
      simp only [filterStep]
      intro h
      have hst' : st.preemptionState = .preempting →
          ∃ d, st.timer = some ⟨d, .toIdle⟩ :=
        fun hp => ⟨st.preemptStart + kMaxPreemptTimeMs, (ih hp).1⟩
      rcases fireTimer_preempting_cases now st hst' h with ⟨heq, hpre⟩ | ⟨htm, hps⟩
      · rw [heq]
        obtain ⟨htm0, _⟩ := ih hpre
        exact ⟨htm0, deadlineOK_le htm0 hdl⟩
      · rw [htm, hps]
        exact ⟨rfl, Nat.le_add_right _ _⟩

end SyncPointMessageFilter

open SyncPointMessageFilter in
/-- C3: in every timed execution of the preemption filter, whenever the
filter is in PREEMPTING at time `t`, no more than `kMaxPreemptTimeMs` (one
vsync interval) has elapsed since PREEMPTING was entered: the one-shot
timer armed on entry is still set to fire at exactly
`preemptStart + kMaxPreemptTimeMs` with the `TransitionToIdle` callback,
and firing it forces the filter out of PREEMPTING and clears the shared
flag, regardless of the remaining backlog. -/
theorem preempting_duration_bounded (st : FilterState) (t : Nat)
    (hr : FilterReachable st t)
    (hp : st.preemptionState = .preempting) :
    kMaxPreemptTimeMs = kVsyncIntervalMs ∧
    t ≤ st.preemptStart + kMaxPreemptTimeMs ∧
    st.timer = some ⟨st.preemptStart + kMaxPreemptTimeMs, .toIdle⟩ ∧
    (fireTimer (st.preemptStart + kMaxPreemptTimeMs) st).preemptionState
      ≠ .preempting ∧
    (fireTimer (st.preemptStart + kMaxPreemptTimeMs) st).preemptingFlag
      = st.preemptingFlag.map (fun _ => false) := by
  obtain ⟨htm, hle⟩ := filterReachable_boundedPreemptInv hr hp
  have hfire : fireTimer (st.preemptStart + kMaxPreemptTimeMs) st
      = transitionToIdleCore (st.preemptStart + kMaxPreemptTimeMs)
          { st with timer := none } := by
    unfold fireTimer
    simp only [htm]
    dsimp only
    rw [if_pos hp]
  refine ⟨rfl, hle, htm, ?_, ?_⟩
  · rw [hfire]
    exact transitionToIdleCore_not_preempting _ _
  · rw [hfire, transitionToIdleCore_flag]

open SyncPointMessageFilter in
/-- C3 (witness): the concrete trace — install the flag at time 0, receive
a message at time 0 (entering WAITING with a 34 ms timer), fire the timer
at 34 (entering CHECKING and immediately PREEMPTING, since the record is
34 ms old) — reaches PREEMPTING at time 34 with `preemptStart = 34`, and
the bound `34 ≤ preemptStart + kMaxPreemptTimeMs` holds. -/
theorem preempting_duration_bounded_witness :
    34 ≤ (filterStep 34 .timerFire (filterStep 0 (.arrive 5)
      (filterStep 0 .installFlag initFilterState))).preemptStart
        + kMaxPreemptTimeMs := by
  have h1 : FilterReachable (filterStep 0 .installFlag initFilterState) 0 :=
    FilterReachable.step .installFlag FilterReachable.init (by decide)
      (by decide) (by decide)
  have h2 : FilterReachable (filterStep 0 (.arrive 5)
      (filterStep 0 .installFlag initFilterState)) 0 :=
    FilterReachable.step (.arrive 5) h1 (by decide) (by decide) (by decide)
  have h3 : FilterReachable (filterStep 34 .timerFire (filterStep 0 (.arrive 5)
      (filterStep 0 .installFlag initFilterState))) 34 :=
    FilterReachable.step .timerFire h2 (by decide) (by decide) (by decide)
  exact (preempting_duration_bounded _ 34 h3 (by decide)).2.1
